import Mathlib

/-!
Shallow embedding of the mind-map diagram-editing core of StudyMatePlus
(src/client/src/pages/MindMapEditor.js): the node/edge data model, the
collapse-visibility engine (`computeHiddenTargets`), the connection-tool
branches of `onConnect`, the waypoint topology operations
(`splitEdgeToWaypoint`, `insertWaypointAt`, `removeWaypoint`), deletion
handlers, templates and the JSON snapshot round trip, together with
theorems settling the frozen specification claims.

Node and edge identifiers are strings (`uuid()` values are modelled as
explicitly supplied fresh strings).  Numeric coordinates and stroke widths
are modelled as rationals so that midpoints are exact.  JavaScript `Set`s
are modelled as duplicate-free lists in insertion order; `undefined`
object fields are modelled as `Option.none`.
-/

abbrev NodeId := String

/-- 2D position; JS floats are modelled as rationals. -/
structure Pos where
  x : Rat
  y : Rat
deriving DecidableEq, Repr

/-- The three custom react-flow node renderers registered in `nodeTypes`:
`study`, `waypoint`, `info`. -/
inductive NodeType where
  | study
  | waypoint
  | info
deriving DecidableEq, Repr

/-- The `data` payload of a node; fields that a given creation site omits are
`none` (matching absent JS object keys). -/
structure NodeData where
  label : Option String
  subject : Option String
  color : Option String
  collapsed : Option Bool
deriving DecidableEq, Repr

structure Node where
  id : NodeId
  type : NodeType
  position : Pos
  data : NodeData
deriving DecidableEq, Repr

/-- Arrowhead marker; the code only ever uses `MarkerType.ArrowClosed`. -/
inductive Marker where
  | arrowClosed
deriving DecidableEq, Repr

/-- Edge stroke style (`{ stroke, strokeWidth, strokeDasharray }`). -/
structure EdgeStyle where
  stroke : Option String
  strokeWidth : Option Rat
  strokeDasharray : Option String
deriving DecidableEq, Repr

/-- A react-flow edge as constructed by the editor.  Fields omitted at a
construction site in the source are `none`. -/
structure Edge where
  id : NodeId
  source : NodeId
  target : NodeId
  type : Option String
  label : Option String
  style : Option EdgeStyle
  markerStart : Option Marker
  markerEnd : Option Marker
  labelShowBg : Option Bool
  labelBgFill : Option String
  labelFill : Option String
  labelBgPadding : Option (Nat × Nat)
deriving DecidableEq, Repr

/-- The component state owned by `MindMapEditor`: node list, edge list, the
collapsed-id set (insertion-ordered duplicate-free list) and the two
selection registers. -/
structure GraphState where
  nodes : List Node
  edges : List Edge
  collapsed : List NodeId
  selectedId : Option NodeId
  selectedEdgeId : Option NodeId
deriving DecidableEq, Repr

/-- The pending connection-style bundle (`connLabel`, `connType`, `connColor`,
`connWidth`, `connLabelBg`, `connLabelBgColor`, `connLabelTextColor`).
`connType` is one of the strings "one-way", "two-way", "none". -/
structure ConnSettings where
  connLabel : String
  connType : String
  connColor : String
  connWidth : Rat
  connLabelBg : Bool
  connLabelBgColor : String
  connLabelTextColor : String
deriving DecidableEq, Repr

/-- JS `s || undefined` for a string: the empty string is falsy. -/
def strOrUndef (s : String) : Option String :=
  if s = "" then none else some s

/-- JS `o || d` for an optional string: `undefined` and `""` fall through. -/
def jsOrStr (o : Option String) (d : String) : String :=
  match o with
  | none => d
  | some s => if s = "" then d else s

/-- The `SUBJECTS` palette lookup `SUBJECTS[subject] || SUBJECTS.Default`. -/
def subjectColor (s : String) : String :=
  if s = "Math" then "#4f83cc"
  else if s = "Science" then "#4caf50"
  else if s = "History" then "#ffb300"
  else if s = "Literature" then "#9c27b0"
  else if s = "CS" then "#5c6bc0"
  else "#2d7ef7"

/-- The `baseStyle` built at the top of `onConnect`:
`{ stroke: connColor, strokeWidth: Number(connWidth) }`. -/
def baseStyle (cs : ConnSettings) : EdgeStyle :=
  { stroke := some cs.connColor, strokeWidth := some cs.connWidth, strokeDasharray := none }

/-- An edge record with every optional field absent, used to build literals. -/
def mkEdge (i s t : NodeId) : Edge :=
  { id := i, source := s, target := t, type := some "smoothstep", label := none,
    style := none, markerStart := none, markerEnd := none, labelShowBg := none,
    labelBgFill := none, labelFill := none, labelBgPadding := none }

/-- A template edge `{ source, target, type:'smoothstep', markerEnd:{ArrowClosed} }`. -/
def mkTplEdge (i s t : NodeId) : Edge :=
  { mkEdge i s t with markerEnd := some Marker.arrowClosed }

/-- The empty `data: {}` payload of a waypoint node. -/
def emptyNodeData : NodeData :=
  { label := none, subject := none, color := none, collapsed := none }

/-! ## Visibility engine: `computeHiddenTargets`

The JS loop

    const hidden = new Set();
    const queue = [...collapsedIds];
    while (queue.length) {
      const src = queue.shift();
      edges.forEach(e => {
        if (e.source === src && !hidden.has(e.target)) {
          hidden.add(e.target);
          queue.push(e.target);
        }
      });
    }
    return hidden;

is embedded as a fuelled interpreter: `chtStep` is the body of the
`forEach`, `innerFold` one full pass over the edges, `chtLoop` the while
loop.  `chtFuel` is an a-priori sufficient amount of fuel (proved
sufficient below), and `computeHiddenTargets` runs the loop with it. -/

/-- One `forEach` iteration of the BFS: the accumulator is (hidden, queue). -/
def chtStep (src : NodeId) (p : List NodeId × List NodeId) (e : Edge) :
    List NodeId × List NodeId :=
  if e.source = src ∧ e.target ∉ p.1 then (p.1 ++ [e.target], p.2 ++ [e.target]) else p

/-- One full pass of `edges.forEach(...)` for the dequeued id `src`. -/
def innerFold (src : NodeId) (es : List Edge) (p : List NodeId × List NodeId) :
    List NodeId × List NodeId :=
  es.foldl (chtStep src) p

/-- The while loop, fuelled; `none` means the fuel ran out. -/
def chtLoop (E : List Edge) : Nat → List NodeId → List NodeId → Option (List NodeId)
  | _, hidden, [] => some hidden
  | 0, _, _ :: _ => none
  | Nat.succ n, hidden, src :: rest =>
      let p := innerFold src E (hidden, rest)
      chtLoop E n p.1 p.2

/-- Fuel that is always sufficient: initial queue length plus twice the number
of distinct edge targets. -/
def chtFuel (C : List NodeId) (E : List Edge) : Nat :=
  C.length + 2 * ((E.map (fun e => e.target)).dedup).length

/-- `computeHiddenTargets(collapsedIds, edges)` from the source. -/
def computeHiddenTargets (C : List NodeId) (E : List Edge) : List NodeId :=
  (chtLoop E (chtFuel C E) [] C).getD []

/-- Instrumented `forEach` body that additionally records every id pushed onto
the queue (third component). -/
def chtStepT (src : NodeId) (p : List NodeId × List NodeId × List NodeId) (e : Edge) :
    List NodeId × List NodeId × List NodeId :=
  if e.source = src ∧ e.target ∉ p.1 then
    (p.1 ++ [e.target], p.2.1 ++ [e.target], p.2.2 ++ [e.target])
  else p

/-- Instrumented while loop returning the trace of queue pushes. -/
def chtLoopT (E : List Edge) : Nat → List NodeId → List NodeId → List NodeId → List NodeId
  | _, _, [], tr => tr
  | 0, _, _ :: _, tr => tr
  | Nat.succ n, hidden, src :: rest, tr =>
      let p := E.foldl (chtStepT src) (hidden, rest, tr)
      chtLoopT E n p.1 p.2.1 p.2.2

/-- Every id ever placed on the BFS queue during `computeHiddenTargets(C, E)`:
the initial enqueue `[...collapsedIds]` followed by the loop's pushes. -/
def enqueuedIds (C : List NodeId) (E : List Edge) : List NodeId :=
  C ++ chtLoopT E (chtFuel C E) [] C []

/-! ## Derived visible node and edge lists -/

/-- `decoratedNodes`: `nodes.filter(n => !hiddenTargets.has(n.id) && !collapsed.has(n.id))`
(the attached rendering callbacks and search highlighting do not change the
filtered list and are omitted). -/
def decoratedNodes (st : GraphState) : List Node :=
  let hidden := computeHiddenTargets st.collapsed st.edges
  st.nodes.filter (fun n => decide (n.id ∉ hidden) && decide (n.id ∉ st.collapsed))

/-- `visibleEdges`: `edges.filter(e => !hiddenTargets.has(e.source) && !hiddenTargets.has(e.target) && !collapsed.has(e.source))`. -/
def visibleEdges (st : GraphState) : List Edge :=
  let hidden := computeHiddenTargets st.collapsed st.edges
  st.edges.filter (fun e =>
    decide (e.source ∉ hidden) && decide (e.target ∉ hidden) &&
    decide (e.source ∉ st.collapsed))

/-! ## Editor operations -/

/-- The initial graph state: the single `root` node, no edges, nothing
collapsed, `selectedId = 'root'`. -/
def initialState : GraphState :=
  { nodes := [{ id := "root", type := NodeType.study, position := { x := 250, y := 100 },
                data := { label := some "Study Plan", subject := some "Default",
                          color := some "#2d7ef7", collapsed := some false } }],
    edges := [], collapsed := [], selectedId := some "root", selectedEdgeId := none }

/-- `deleteSelected`: no-op unless a non-root node is selected; otherwise
removes the node, every incident edge, and reselects `root`. -/
def deleteSelected (st : GraphState) : GraphState :=
  match st.selectedId.bind (fun sid => st.nodes.find? (fun n => decide (n.id = sid))) with
  | none => st
  | some sn =>
    if sn.id = "root" then st
    else
      { st with
        nodes := st.nodes.filter (fun n => decide (n.id ≠ sn.id)),
        edges := st.edges.filter (fun e => decide (e.source ≠ sn.id ∧ e.target ≠ sn.id)),
        selectedId := some "root" }

/-- The Delete/Backspace branch of the `onKey` handler: a selected edge is
removed first; otherwise a selected non-root node is removed with its
incident edges. -/
def onKeyDelete (st : GraphState) : GraphState :=
  match st.selectedEdgeId with
  | some eid =>
      { st with edges := st.edges.filter (fun x => decide (x.id ≠ eid)),
                selectedEdgeId := none }
  | none =>
    match st.selectedId with
    | some sid =>
        if sid ≠ "root" then
          { st with
            nodes := st.nodes.filter (fun n => decide (n.id ≠ sid)),
            edges := st.edges.filter (fun ed => decide (ed.source ≠ sid ∧ ed.target ≠ sid)),
            selectedId := none }
        else st
    | none => st

/-- `addChild(subject)`: appends a child of the selected node (or of
`nodes[0]`) plus a `smoothstep` arrow edge.  The fresh uuids and the random
vertical offset are explicit parameters. -/
def addChild (st : GraphState) (subject : String) (nid eid : NodeId) (ry : Rat) :
    GraphState :=
  let base? :=
    match st.selectedId.bind (fun sid => st.nodes.find? (fun n => decide (n.id = sid))) with
    | some b => some b
    | none => st.nodes.head?
  match base? with
  | none => st
  | some base =>
    { st with
      nodes := st.nodes ++
        [{ id := nid, type := NodeType.study,
           position := { x := base.position.x + 200, y := base.position.y + ry },
           data := { label := some (subject ++ " Topic"), subject := some subject,
                     color := some (subjectColor subject), collapsed := some false } }],
      edges := st.edges ++ [mkTplEdge eid base.id nid],
      selectedId := some nid }

/-- `createNodeBoxAt(pos)` (and `createNodeBox`, whose random position is the
`pos` argument here): appends a fresh `study` node and selects it. -/
def createNodeBoxAt (st : GraphState) (pos : Pos) (nid : NodeId) : GraphState :=
  { st with
    nodes := st.nodes ++
      [{ id := nid, type := NodeType.study, position := pos,
         data := { label := some "New Node", subject := some "Default",
                   color := some "#2d7ef7", collapsed := some false } }],
    selectedId := some nid }

/-- The `informational` branch of `onConnect`: one waypoint node at the
midpoint of the endpoints (fallback (120,120)), edge `source→waypoint` with
the pending label/style and no markers, and edge `waypoint→target` with no
label and no markers. -/
def informationalConnect (cs : ConnSettings) (st : GraphState)
    (src tgt wpId idA idB : NodeId) : GraphState :=
  let srcNode := st.nodes.find? (fun n => decide (n.id = src))
  let tgtNode := st.nodes.find? (fun n => decide (n.id = tgt))
  let mid : Pos :=
    match srcNode, tgtNode with
    | some s, some t =>
        { x := (s.position.x + t.position.x) / 2, y := (s.position.y + t.position.y) / 2 }
    | _, _ => { x := 120, y := 120 }
  let waypoint : Node :=
    { id := wpId, type := NodeType.waypoint, position := mid, data := emptyNodeData }
  let edgeA : Edge :=
    { id := idA, source := src, target := wpId, type := some "smoothstep",
      label := strOrUndef cs.connLabel, style := some (baseStyle cs),
      markerStart := none, markerEnd := none, labelShowBg := some cs.connLabelBg,
      labelBgFill := some cs.connLabelBgColor, labelFill := some cs.connLabelTextColor,
      labelBgPadding := some (6, 4) }
  let edgeB : Edge :=
    { id := idB, source := wpId, target := tgt, type := some "smoothstep",
      label := none, style := some (baseStyle cs), markerStart := none,
      markerEnd := none, labelShowBg := none, labelBgFill := none, labelFill := none,
      labelBgPadding := none }
  { st with nodes := st.nodes ++ [waypoint], edges := st.edges ++ [edgeA, edgeB] }

/-- `splitEdgeToWaypoint(edgeId)`: replaces the edge with two segments around
a new waypoint at an offset midpoint; both segments inherit the original
label, style and both markers.  No-op when `edgeId` is absent. -/
def splitEdgeToWaypoint (st : GraphState) (edgeId wpId idA idB : NodeId) : GraphState :=
  match st.edges.find? (fun x => decide (x.id = edgeId)) with
  | none => st
  | some e =>
    let srcNode := st.nodes.find? (fun n => decide (n.id = e.source))
    let tgtNode := st.nodes.find? (fun n => decide (n.id = e.target))
    let mid : Pos :=
      match srcNode, tgtNode with
      | some s, some t =>
          { x := (s.position.x + t.position.x) / 2 + 20,
            y := (s.position.y + t.position.y) / 2 }
      | _, _ => { x := 100, y := 100 }
    let waypoint : Node :=
      { id := wpId, type := NodeType.waypoint, position := mid, data := emptyNodeData }
    { st with
      nodes := st.nodes ++ [waypoint],
      edges := (st.edges.filter (fun x => decide (x.id ≠ edgeId))) ++
        [ { id := idA, source := e.source, target := wpId, type := e.type,
            label := e.label, style := e.style, markerStart := e.markerStart,
            markerEnd := e.markerEnd, labelShowBg := none, labelBgFill := none,
            labelFill := none, labelBgPadding := none },
          { id := idB, source := wpId, target := e.target, type := e.type,
            label := e.label, style := e.style, markerStart := e.markerStart,
            markerEnd := e.markerEnd, labelShowBg := none, labelBgFill := none,
            labelFill := none, labelBgPadding := none } ] }

/-- `insertWaypointAt(edgeId, position)`: the waypoint node is appended
unconditionally (`setNodes` runs first); the edge, when found, is split with
the start marker kept on the first segment, the end marker moved to the
second, and the label only on the first. -/
def insertWaypointAt (st : GraphState) (edgeId : NodeId) (pos : Pos)
    (wpId idA idB : NodeId) : GraphState :=
  let waypoint : Node :=
    { id := wpId, type := NodeType.waypoint, position := pos, data := emptyNodeData }
  let nodes' := st.nodes ++ [waypoint]
  let edges' :=
    match st.edges.find? (fun x => decide (x.id = edgeId)) with
    | none => st.edges
    | some e =>
      let others := st.edges.filter (fun x => decide (x.id ≠ edgeId))
      let style := e.style.getD { stroke := none, strokeWidth := none, strokeDasharray := none }
      others ++
        [ { id := idA, source := e.source, target := wpId,
            type := some (jsOrStr e.type "smoothstep"), label := e.label,
            style := some style, markerStart := e.markerStart, markerEnd := none,
            labelShowBg := none, labelBgFill := none, labelFill := none,
            labelBgPadding := none },
          { id := idB, source := wpId, target := e.target,
            type := some (jsOrStr e.type "smoothstep"), label := none,
            style := some style, markerStart := none, markerEnd := e.markerEnd,
            labelShowBg := none, labelBgFill := none, labelFill := none,
            labelBgPadding := none } ]
  { st with nodes := nodes', edges := edges' }

/-- `removeWaypoint(edgeId)`: finds a waypoint node adjacent to the edge by
the source's search predicate, deletes it and its incident edges, and splices
a rejoined edge when a unique-looking inbound/outbound pair is found. -/
def removeWaypoint (st : GraphState) (edgeId jId : NodeId) : GraphState :=
  match st.edges.find? (fun x => decide (x.id = edgeId)) with
  | none => st
  | some e =>
    match st.nodes.find? (fun n =>
        decide (n.type = NodeType.waypoint) &&
        (st.edges.any (fun ed => decide (ed.source = n.id ∧ ed.target = e.target)) ||
         st.edges.any (fun ed => decide (ed.target = n.id ∧ ed.source = e.source)))) with
    | none => st
    | some wp =>
      let others := st.edges.filter (fun x => decide (x.source ≠ wp.id ∧ x.target ≠ wp.id))
      let before := st.edges.find? (fun x => decide (x.target = wp.id))
      let after := st.edges.find? (fun x => decide (x.source = wp.id))
      let edges' :=
        match before, after with
        | some b, some a =>
            others ++
              [ { id := jId, source := b.source, target := a.target, type := b.type,
                  label := b.label, style := b.style, markerStart := none,
                  markerEnd := a.markerEnd, labelShowBg := none, labelBgFill := none,
                  labelFill := none, labelBgPadding := none } ]
        | _, _ => others
      { st with nodes := st.nodes.filter (fun n => decide (n.id ≠ wp.id)), edges := edges' }

/-- `applyTemplate('exam')`: replaces the graph with four nodes whose ids are
'1'..'4' (note: none of them is `root`). -/
def applyTemplateExam (st : GraphState) : GraphState :=
  { st with
    nodes := [
      { id := "1", type := NodeType.study, position := { x := 250, y := 80 },
        data := { label := some "Exam Prep", subject := some "Default",
                  color := some "#2d7ef7", collapsed := none } },
      { id := "2", type := NodeType.study, position := { x := 60, y := 260 },
        data := { label := some "Math", subject := some "Math",
                  color := some "#4f83cc", collapsed := none } },
      { id := "3", type := NodeType.study, position := { x := 250, y := 260 },
        data := { label := some "Science", subject := some "Science",
                  color := some "#4caf50", collapsed := none } },
      { id := "4", type := NodeType.study, position := { x := 440, y := 260 },
        data := { label := some "History", subject := some "History",
                  color := some "#ffb300", collapsed := none } } ],
    edges := [mkTplEdge "e1-2" "1" "2", mkTplEdge "e1-3" "1" "3", mkTplEdge "e1-4" "1" "4"],
    selectedId := some "1", collapsed := [] }

/-- `applyTemplate('research')`; the uuid edge ids are supplied by `fresh`. -/
def applyTemplateResearch (fresh : Nat → NodeId) (st : GraphState) : GraphState :=
  { st with
    nodes := [
      { id := "root", type := NodeType.study, position := { x := 140, y := 90 },
        data := { label := some "Research Paper", subject := some "Default",
                  color := some "#2d7ef7", collapsed := none } },
      { id := "i", type := NodeType.study, position := { x := 300, y := 260 },
        data := { label := some "Introduction", subject := some "Default",
                  color := some "#2d7ef7", collapsed := none } },
      { id := "m", type := NodeType.study, position := { x := 460, y := 260 },
        data := { label := some "Method", subject := some "Default",
                  color := some "#2d7ef7", collapsed := none } },
      { id := "r", type := NodeType.study, position := { x := 620, y := 260 },
        data := { label := some "Results", subject := some "Default",
                  color := some "#2d7ef7", collapsed := none } },
      { id := "c", type := NodeType.study, position := { x := 780, y := 260 },
        data := { label := some "Conclusion", subject := some "Default",
                  color := some "#2d7ef7", collapsed := none } } ],
    edges := [mkTplEdge (fresh 0) "root" "i", mkTplEdge (fresh 1) "root" "m",
              mkTplEdge (fresh 2) "root" "r", mkTplEdge (fresh 3) "root" "c"],
    selectedId := some "root", collapsed := [] }

/-- `applyTemplate('planner')`; the uuid edge ids are supplied by `fresh`. -/
def applyTemplatePlanner (fresh : Nat → NodeId) (st : GraphState) : GraphState :=
  { st with
    nodes := [
      { id := "root", type := NodeType.study, position := { x := 250, y := 90 },
        data := { label := some "Today", subject := some "Default",
                  color := some "#2d7ef7", collapsed := none } },
      { id := "m", type := NodeType.study, position := { x := 80, y := 250 },
        data := { label := some "Morning", subject := some "Default",
                  color := some "#6c8cff", collapsed := none } },
      { id := "n", type := NodeType.study, position := { x := 250, y := 250 },
        data := { label := some "Afternoon", subject := some "Default",
                  color := some "#64d2b4", collapsed := none } },
      { id := "e", type := NodeType.study, position := { x := 420, y := 250 },
        data := { label := some "Evening", subject := some "Default",
                  color := some "#ff9e6e", collapsed := none } } ],
    edges := [mkTplEdge (fresh 0) "root" "m", mkTplEdge (fresh 1) "root" "n",
              mkTplEdge (fresh 2) "root" "e"],
    selectedId := some "root", collapsed := [] }

/-! ## Serialization -/

/-- The persisted snapshot `{ nodes, edges, collapsed: Array.from(collapsed) }`. -/
structure Snapshot where
  nodes : List Node
  edges : List Edge
  collapsed : List NodeId
deriving DecidableEq, Repr

/-- `exportJSON`'s payload: `JSON.stringify({ nodes, edges, collapsed: Array.from(collapsed) })`.
The JSON text encodes this record losslessly (absent keys are `none`). -/
def exportJSON (st : GraphState) : Snapshot :=
  { nodes := st.nodes, edges := st.edges, collapsed := st.collapsed }

/-- `new Set(l)` on a list of ids: duplicate-free, keeping first occurrences
in insertion order. -/
def jsSetOfList (l : List NodeId) : List NodeId :=
  l.foldl (fun acc x => if x ∈ acc then acc else acc ++ [x]) []

/-- `importJSON` after a successful parse: replaces nodes, edges and the
collapsed set of the current state with the snapshot's. -/
def importJSON (snap : Snapshot) (st : GraphState) : GraphState :=
  { st with nodes := snap.nodes, edges := snap.edges,
            collapsed := jsSetOfList snap.collapsed }

/-- Number of nodes carrying the reserved id `root`. -/
def countRoot (l : List Node) : Nat :=
  (l.filter (fun n => decide (n.id = "root"))).length

/-! ## Reachability predicate

`ReachP E C x` holds when `x` is reachable from some id in `C` along at
least one `source → target` edge step; this is the specification-level
meaning of the hidden set. -/

inductive ReachP (E : List Edge) (C : List NodeId) : NodeId → Prop where
  | base (e : Edge) : e ∈ E → e.source ∈ C → ReachP E C e.target
  | step (e : Edge) : e ∈ E → ReachP E C e.source → ReachP E C e.target

/-! ## Concrete example states used by the claim theorems -/

/-- The root node of the initial graph. -/
def rootNode : Node :=
  { id := "root", type := NodeType.study, position := { x := 250, y := 100 },
    data := { label := some "Study Plan", subject := some "Default",
              color := some "#2d7ef7", collapsed := some false } }

/-- Scenario graph of the spec: `root` and `A`, one edge `root→A`, with
`root` collapsed. -/
def nodeA : Node :=
  { id := "A", type := NodeType.study, position := { x := 400, y := 100 },
    data := { label := some "A", subject := some "Default",
              color := some "#2d7ef7", collapsed := some false } }

def st4 : GraphState :=
  { nodes := [rootNode, nodeA],
    edges := [mkTplEdge "e1" "root" "A"],
    collapsed := ["root"], selectedId := none, selectedEdgeId := none }

/-- A graph where an unrelated waypoint `n0` hangs off `s`: splitting the
edge `e : s→t` and removing a segment makes `removeWaypoint` pick `n0`
instead of the freshly inserted waypoint. -/
def stCx : GraphState :=
  { nodes := [
      { id := "s", type := NodeType.study, position := { x := 0, y := 0 },
        data := emptyNodeData },
      { id := "n0", type := NodeType.waypoint, position := { x := 1, y := 1 },
        data := emptyNodeData },
      { id := "x", type := NodeType.study, position := { x := 2, y := 2 },
        data := emptyNodeData },
      { id := "t", type := NodeType.study, position := { x := 3, y := 3 },
        data := emptyNodeData } ],
    edges := [mkEdge "p" "s" "n0", mkEdge "q" "n0" "x", mkEdge "e" "s" "t"],
    collapsed := [], selectedId := none, selectedEdgeId := none }

/-- A graph whose waypoint `w` has an inbound edge but no outbound edge:
no well-formed inbound/outbound pair exists around `w`. -/
def stR : GraphState :=
  { nodes := [rootNode,
      { id := "w", type := NodeType.waypoint, position := { x := 5, y := 5 },
        data := emptyNodeData }],
    edges := [mkEdge "e1" "root" "w"],
    collapsed := [], selectedId := none, selectedEdgeId := none }

/-- Edge set with a two-cycle, used against the BFS enqueue bookkeeping. -/
def cycleEdges : List Edge :=
  [mkEdge "e1" "a" "b", mkEdge "e2" "b" "a"]

/-! ## Helper lemmas about the visibility BFS and list utilities -/

theorem innerFold_cons (src : NodeId) (e : Edge) (es : List Edge)
    (p : List NodeId × List NodeId) :
    innerFold src (e :: es) p = innerFold src es (chtStep src p e) := by
  simp [innerFold, List.foldl_cons]

theorem innerFold_spec (src : NodeId) :
    ∀ (es : List Edge) (h q : List NodeId),
      ∃ new : List NodeId,
        innerFold src es (h, q) = (h ++ new, q ++ new) ∧
        (∀ t ∈ new, t ∉ h ∧ ∃ e ∈ es, e.source = src ∧ e.target = t) ∧
        new.Nodup := by
  intro es
  induction es with
  | nil =>
    intro h q
    exact ⟨[], by simp [innerFold], by simp, List.nodup_nil⟩
  | cons e es ih =>
    intro h q
    by_cases hc : e.source = src ∧ e.target ∉ h
    · have hstep : chtStep src (h, q) e = (h ++ [e.target], q ++ [e.target]) := by
        simp [chtStep, hc]
      obtain ⟨new, hEq, hProp, hNd⟩ := ih (h ++ [e.target]) (q ++ [e.target])
      refine ⟨e.target :: new, ?_, ?_, ?_⟩
      · rw [innerFold_cons, hstep, hEq]
        simp
      · intro t ht
        rcases List.mem_cons.mp ht with rfl | ht'
        · exact ⟨hc.2, e, List.mem_cons_self e es, hc.1, rfl⟩
        · obtain ⟨hnot, e', he', hsrc', htgt'⟩ := hProp t ht'
          refine ⟨fun hf => hnot (by simp [hf]), e', List.mem_cons_of_mem e he', hsrc', htgt'⟩
      · refine List.nodup_cons.mpr ⟨?_, hNd⟩
        intro hmem
        have := (hProp _ hmem).1
        simp at this
    · have hstep : chtStep src (h, q) e = (h, q) := by
        simp only [chtStep, if_neg hc]
      obtain ⟨new, hEq, hProp, hNd⟩ := ih h q
      refine ⟨new, by rw [innerFold_cons, hstep, hEq], ?_, hNd⟩
      intro t ht
      obtain ⟨hnot, e', he', hsrc', htgt'⟩ := hProp t ht
      exact ⟨hnot, e', List.mem_cons_of_mem e he', hsrc', htgt'⟩

theorem innerFold_mono_cover (src : NodeId) :
    ∀ (es : List Edge) (h q : List NodeId),
      (∀ x ∈ h, x ∈ (innerFold src es (h, q)).1) ∧
      (∀ e ∈ es, e.source = src → e.target ∈ (innerFold src es (h, q)).1) := by
  intro es
  induction es with
  | nil => intro h q; simp [innerFold]
  | cons e es ih =>
    intro h q
    by_cases hc : e.source = src ∧ e.target ∉ h
    · have hstep : chtStep src (h, q) e = (h ++ [e.target], q ++ [e.target]) := by
        simp [chtStep, hc]
      have ihm := (ih (h ++ [e.target]) (q ++ [e.target])).1
      have ihc := (ih (h ++ [e.target]) (q ++ [e.target])).2
      rw [innerFold_cons, hstep]
      constructor
      · intro x hx
        exact ihm x (by simp [hx])
      · intro e' he' hsrc'
        rcases List.mem_cons.mp he' with rfl | he''
        · exact ihm e'.target (by simp)
        · exact ihc e' he'' hsrc'
    · have hstep : chtStep src (h, q) e = (h, q) := by
        simp only [chtStep, if_neg hc]
      rw [innerFold_cons, hstep]
      refine ⟨(ih h q).1, ?_⟩
      intro e' he' hsrc'
      rcases List.mem_cons.mp he' with rfl | he''
      · have htin : e'.target ∈ h := by
          by_contra hni
          exact hc ⟨hsrc', hni⟩
        exact (ih h q).1 _ htin
      · exact (ih h q).2 e' he'' hsrc'

theorem innerFold_measure (src : NodeId) (es : List Edge) (h q : List NodeId)
    (T : Finset NodeId) (hT : ∀ e ∈ es, e.target ∈ T) :
    (innerFold src es (h, q)).2.length +
      2 * (T \ (innerFold src es (h, q)).1.toFinset).card ≤
    q.length + 2 * (T \ h.toFinset).card := by
  obtain ⟨new, hEq, hProp, hNd⟩ := innerFold_spec src es h q
  rw [hEq]
  have hsub : new.toFinset ⊆ T \ h.toFinset := by
    intro t ht
    rw [List.mem_toFinset] at ht
    obtain ⟨hnh, e, he, _, hte⟩ := hProp t ht
    rw [Finset.mem_sdiff, List.mem_toFinset]
    exact ⟨hte ▸ hT e he, hnh⟩
  have hset : T \ (h ++ new).toFinset = (T \ h.toFinset) \ new.toFinset := by
    ext a
    simp only [List.toFinset_append, Finset.mem_sdiff, Finset.mem_union]
    tauto
  rw [hset, Finset.card_sdiff hsub, List.length_append]
  have hlen : new.toFinset.card = new.length := by
    rw [List.card_toFinset, hNd.dedup]
  have hle : new.toFinset.card ≤ (T \ h.toFinset).card := Finset.card_le_card hsub
  omega

theorem chtLoop_total (E : List Edge) (T : Finset NodeId) (hT : ∀ e ∈ E, e.target ∈ T) :
    ∀ (fuel : Nat) (h q : List NodeId),
      q.length + 2 * (T \ h.toFinset).card ≤ fuel →
      ∃ hf, chtLoop E fuel h q = some hf := by
  intro fuel
  induction fuel with
  | zero =>
    intro h q hle
    match q with
    | [] => exact ⟨h, rfl⟩
    | src :: rest => simp at hle
  | succ n ih =>
    intro h q hle
    match q with
    | [] => exact ⟨h, rfl⟩
    | src :: rest =>
      have hm := innerFold_measure src E h rest T hT
      have hrec :
          (innerFold src E (h, rest)).2.length +
            2 * (T \ (innerFold src E (h, rest)).1.toFinset).card ≤ n := by
        simp only [List.length_cons] at hle
        omega
      obtain ⟨hf, hrun⟩ := ih _ _ hrec
      exact ⟨hf, by simpa [chtLoop] using hrun⟩

theorem chtLoop_spec (E : List Edge) (C : List NodeId) :
    ∀ (fuel : Nat) (h q hf : List NodeId),
      chtLoop E fuel h q = some hf →
      h.Nodup →
      (∀ x ∈ h, ReachP E C x) →
      (∀ x ∈ q, x ∈ C ∨ ReachP E C x) →
      (∀ e ∈ E, e.source ∈ C ∨ e.source ∈ h → e.source ∈ q ∨ e.target ∈ h) →
      hf.Nodup ∧ (∀ x ∈ hf, ReachP E C x) ∧
        (∀ e ∈ E, e.source ∈ C ∨ e.source ∈ hf → e.target ∈ hf) := by
  intro fuel
  induction fuel with
  | zero =>
    intro h q hf hrun hnd hs hq hI
    match q, hrun with
    | [], hrun =>
      cases hrun
      refine ⟨hnd, hs, ?_⟩
      intro e he hsrc
      rcases hI e he hsrc with h1 | h2
      · cases h1
      · exact h2
  | succ n ih =>
    intro h q hf hrun hnd hs hq hI
    match q, hrun with
    | [], hrun =>
      cases hrun
      refine ⟨hnd, hs, ?_⟩
      intro e he hsrc
      rcases hI e he hsrc with h1 | h2
      · cases h1
      · exact h2
    | src :: rest, hrun =>
      obtain ⟨new, hEq, hProp, hNdNew⟩ := innerFold_spec src E h rest
      have hcov := (innerFold_mono_cover src E h rest).2
      rw [hEq] at hcov
      have hrun' : chtLoop E n (h ++ new) (rest ++ new) = some hf := by
        have : chtLoop E (n + 1) h (src :: rest) =
            chtLoop E n (innerFold src E (h, rest)).1 (innerFold src E (h, rest)).2 := rfl
        rw [this, hEq] at hrun
        exact hrun
      have hsrcR : src ∈ C ∨ ReachP E C src := hq src (List.mem_cons_self src rest)
      have hnewReach : ∀ t ∈ new, ReachP E C t := by
        intro t ht
        obtain ⟨_, e, heE, hesrc, htgt⟩ := hProp t ht
        rcases hsrcR with hC | hR
        · exact htgt ▸ ReachP.base e heE (hesrc ▸ hC)
        · exact htgt ▸ ReachP.step e heE (hesrc ▸ hR)
      apply ih (h ++ new) (rest ++ new) hf hrun'
      · rw [List.nodup_append]
        refine ⟨hnd, hNdNew, ?_⟩
        intro a ha hmem
        exact (hProp a hmem).1 ha
      · intro x hx
        rcases List.mem_append.mp hx with h1 | h2
        · exact hs x h1
        · exact hnewReach x h2
      · intro x hx
        rcases List.mem_append.mp hx with h1 | h2
        · exact hq x (List.mem_cons_of_mem src h1)
        · exact Or.inr (hnewReach x h2)
      · intro e heE hesrc
        by_cases hsn : e.source ∈ new
        · exact Or.inl (List.mem_append.mpr (Or.inr hsn))
        · have hold : e.source ∈ C ∨ e.source ∈ h := by
            rcases hesrc with h1 | h2
            · exact Or.inl h1
            · rcases List.mem_append.mp h2 with h3 | h4
              · exact Or.inr h3
              · exact absurd h4 hsn
          rcases hI e heE hold with h1 | h2
          · rcases List.mem_cons.mp h1 with heq | h3
            · exact Or.inr (hcov e heE heq)
            · exact Or.inl (List.mem_append.mpr (Or.inl h3))
          · exact Or.inr (List.mem_append.mpr (Or.inl h2))

theorem computeHiddenTargets_run (C : List NodeId) (E : List Edge) :
    ∃ hf, chtLoop E (chtFuel C E) [] C = some hf := by
  apply chtLoop_total E ((E.map (fun e => e.target)).toFinset)
  · intro e he
    rw [List.mem_toFinset, List.mem_map]
    exact ⟨e, he, rfl⟩
  · rw [List.toFinset_nil, Finset.sdiff_empty, List.card_toFinset, chtFuel]

theorem mem_computeHiddenTargets (C : List NodeId) (E : List Edge) (x : NodeId) :
    x ∈ computeHiddenTargets C E ↔ ReachP E C x := by
  obtain ⟨hf, hrun⟩ := computeHiddenTargets_run C E
  have hcht : computeHiddenTargets C E = hf := by
    simp [computeHiddenTargets, hrun]
  have hspec := chtLoop_spec E C (chtFuel C E) [] C hf hrun List.nodup_nil
    (by intro x hx; cases hx) (fun x hx => Or.inl hx)
    (by
      intro e he hsrc
      rcases hsrc with h1 | h2
      · exact Or.inl h1
      · cases h2)
  rw [hcht]
  constructor
  · exact fun hx => hspec.2.1 x hx
  · intro hr
    induction hr with
    | base e heE hC => exact hspec.2.2 e heE (Or.inl hC)
    | step e heE hRs ihs => exact hspec.2.2 e heE (Or.inr ihs)

theorem computeHiddenTargets_nodup (C : List NodeId) (E : List Edge) :
    (computeHiddenTargets C E).Nodup := by
  obtain ⟨hf, hrun⟩ := computeHiddenTargets_run C E
  have hcht : computeHiddenTargets C E = hf := by
    simp [computeHiddenTargets, hrun]
  have hspec := chtLoop_spec E C (chtFuel C E) [] C hf hrun List.nodup_nil
    (by intro x hx; cases hx) (fun x hx => Or.inl hx)
    (by
      intro e he hsrc
      rcases hsrc with h1 | h2
      · exact Or.inl h1
      · cases h2)
  rw [hcht]
  exact hspec.1

theorem reachP_mono (E : List Edge) (C C₂ : List NodeId) (x : NodeId)
    (hsub : ∀ y ∈ C, y ∈ C₂) (hr : ReachP E C x) : ReachP E C₂ x := by
  induction hr with
  | base e heE hC => exact ReachP.base e heE (hsub _ hC)
  | step e heE _ ihs => exact ReachP.step e heE ihs

theorem reachP_absorb (E : List Edge) (C H : List NodeId) (x : NodeId)
    (hH : ∀ y ∈ H, ReachP E C y) (hr : ReachP E (C ++ H) x) : ReachP E C x := by
  induction hr with
  | base e heE hC =>
    rcases List.mem_append.mp hC with h1 | h2
    · exact ReachP.base e heE h1
    · exact ReachP.step e heE (hH _ h2)
  | step e heE _ ihs => exact ReachP.step e heE ihs

theorem find?_append_none {α : Type} {p : α → Bool} {l₁ l₂ : List α}
    (h : l₁.find? p = none) : (l₁ ++ l₂).find? p = l₂.find? p := by
  induction l₁ with
  | nil => simp
  | cons a l ih =>
    match hpa : p a with
    | true => simp [List.find?_cons, hpa] at h
    | false =>
      simp only [List.find?_cons, hpa] at h
      simp only [List.cons_append, List.find?_cons, hpa]
      exact ih h

theorem mem_jsSetFold (l : List NodeId) :
    ∀ (acc : List NodeId) (x : NodeId),
      (x ∈ l.foldl (fun acc y => if y ∈ acc then acc else acc ++ [y]) acc) ↔
        x ∈ acc ∨ x ∈ l := by
  induction l with
  | nil => simp
  | cons a l ih =>
    intro acc x
    rw [List.foldl_cons]
    by_cases ha : a ∈ acc
    · rw [if_pos ha, ih]
      constructor
      · rintro (h1 | h2)
        · exact Or.inl h1
        · exact Or.inr (List.mem_cons_of_mem a h2)
      · rintro (h1 | h2)
        · exact Or.inl h1
        · rcases List.mem_cons.mp h2 with rfl | h3
          · exact Or.inl ha
          · exact Or.inr h3
    · rw [if_neg ha, ih]
      simp only [List.mem_append, List.mem_singleton, List.mem_cons]
      tauto

theorem mem_jsSetOfList (l : List NodeId) (x : NodeId) :
    x ∈ jsSetOfList l ↔ x ∈ l := by
  rw [jsSetOfList, mem_jsSetFold]
  simp

theorem countRoot_append (l m : List Node) :
    countRoot (l ++ m) = countRoot l + countRoot m := by
  simp [countRoot, List.filter_append]

theorem countRoot_filter_ne (l : List Node) (i : NodeId) (hi : i ≠ "root") :
    countRoot (l.filter (fun n => decide (n.id ≠ i))) = countRoot l := by
  induction l with
  | nil => rfl
  | cons a l ih =>
    by_cases hai : a.id = i
    · have har : ¬ a.id = "root" := fun hr => hi (hai ▸ hr)
      have e1 : (a :: l).filter (fun n => decide (n.id ≠ i)) =
          l.filter (fun n => decide (n.id ≠ i)) := by
        simp [List.filter_cons, hai]
      have e2 : countRoot (a :: l) = countRoot l := by
        simp [countRoot, List.filter_cons, har]
      rw [e1, e2, ih]
    · have e1 : (a :: l).filter (fun n => decide (n.id ≠ i)) =
          a :: l.filter (fun n => decide (n.id ≠ i)) := by
        simp [List.filter_cons, hai]
      by_cases har : a.id = "root"
      · have e2 : ∀ m : List Node, countRoot (a :: m) = countRoot m + 1 := by
          intro m
          simp [countRoot, List.filter_cons, har]
      
        rw [e1, e2, e2, ih]
      · have e2 : ∀ m : List Node, countRoot (a :: m) = countRoot m := by
          intro m
          simp [countRoot, List.filter_cons, har]
        rw [e1, e2, e2, ih]

theorem countRoot_snoc_ne (l : List Node) (n : Node) (h : n.id ≠ "root") :
    countRoot (l ++ [n]) = countRoot l := by
  rw [countRoot_append]
  simp [countRoot, h]

theorem countRoot_deleteSelected (st : GraphState) :
    countRoot (deleteSelected st).nodes = countRoot st.nodes := by
  unfold deleteSelected
  cases hfind : st.selectedId.bind (fun sid => st.nodes.find? (fun n => decide (n.id = sid))) with
  | none => rfl
  | some sn =>
    by_cases hroot : sn.id = "root"
    · simp [hroot]
    · simp only [if_neg hroot]
      exact countRoot_filter_ne st.nodes sn.id hroot

theorem countRoot_onKeyDelete (st : GraphState) :
    countRoot (onKeyDelete st).nodes = countRoot st.nodes := by
  unfold onKeyDelete
  cases st.selectedEdgeId with
  | some eid => rfl
  | none =>
    cases st.selectedId with
    | none => rfl
    | some sid =>
      by_cases hroot : sid ≠ "root"
      · simp only [if_pos hroot]
        exact countRoot_filter_ne st.nodes sid hroot
      · simp only [if_neg hroot]

theorem countRoot_addChild (st : GraphState) (subject : String) (nid eid : NodeId)
    (ry : Rat) (h : nid ≠ "root") :
    countRoot (addChild st subject nid eid ry).nodes = countRoot st.nodes := by
  unfold addChild
  cases (match st.selectedId.bind
      (fun sid => st.nodes.find? (fun n => decide (n.id = sid))) with
    | some b => some b
    | none => st.nodes.head?) with
  | none => rfl
  | some base => exact countRoot_snoc_ne st.nodes _ h

theorem countRoot_createNodeBoxAt (st : GraphState) (pos : Pos) (nid : NodeId)
    (h : nid ≠ "root") :
    countRoot (createNodeBoxAt st pos nid).nodes = countRoot st.nodes := by
  exact countRoot_snoc_ne st.nodes _ h

theorem countRoot_informationalConnect (cs : ConnSettings) (st : GraphState)
    (src tgt wpId idA idB : NodeId) (h : wpId ≠ "root") :
    countRoot (informationalConnect cs st src tgt wpId idA idB).nodes =
      countRoot st.nodes := by
  exact countRoot_snoc_ne st.nodes _ h

theorem countRoot_splitEdgeToWaypoint (st : GraphState) (eid wpId idA idB : NodeId)
    (h : wpId ≠ "root") :
    countRoot (splitEdgeToWaypoint st eid wpId idA idB).nodes = countRoot st.nodes := by
  unfold splitEdgeToWaypoint
  cases st.edges.find? (fun x => decide (x.id = eid)) with
  | none => rfl
  | some e => exact countRoot_snoc_ne st.nodes _ h

theorem countRoot_insertWaypointAt (st : GraphState) (eid : NodeId) (pos : Pos)
    (wpId idA idB : NodeId) (h : wpId ≠ "root") :
    countRoot (insertWaypointAt st eid pos wpId idA idB).nodes = countRoot st.nodes := by
  unfold insertWaypointAt
  cases st.edges.find? (fun x => decide (x.id = eid)) with
  | none => exact countRoot_snoc_ne st.nodes _ h
  | some e => exact countRoot_snoc_ne st.nodes _ h

theorem countRoot_removeWaypoint (st : GraphState) (eid jId : NodeId)
    (h : ∀ n ∈ st.nodes, n.type = NodeType.waypoint → n.id ≠ "root") :
    countRoot (removeWaypoint st eid jId).nodes = countRoot st.nodes := by
  unfold removeWaypoint
  cases hfe : st.edges.find? (fun x => decide (x.id = eid)) with
  | none => rfl
  | some e =>
    cases hfw : st.nodes.find? (fun n =>
        decide (n.type = NodeType.waypoint) &&
        (st.edges.any (fun ed => decide (ed.source = n.id ∧ ed.target = e.target)) ||
         st.edges.any (fun ed => decide (ed.target = n.id ∧ ed.source = e.source)))) with
    | none => simp only [hfw]
    | some wp =>
      simp only [hfw]
      have hmem : wp ∈ st.nodes := List.mem_of_find?_eq_some hfw
      have hpred := List.find?_some hfw
      have htype : wp.type = NodeType.waypoint := by
        simp only [Bool.and_eq_true, decide_eq_true_eq] at hpred
        exact hpred.1
      exact countRoot_filter_ne st.nodes wp.id (h wp hmem htype)

/-! ## Claim theorems -/

/-- C1 (counterexample): applying the exam template to the initial state
yields a graph with no node whose id is `root` (its ids are '1'..'4'), and
importing an empty snapshot does the same, refuting the claim that every
editor operation preserves exactly one `root` node. -/
theorem c1_root_invariant_counterexample :
    countRoot (applyTemplateExam initialState).nodes = 0 ∧
    countRoot (importJSON { nodes := [], edges := [], collapsed := [] } initialState).nodes = 0 ∧
    countRoot (applyTemplateExam initialState).nodes ≠ 1 := by
  decide

/-- C1 (amended): exactly one `root` node exists initially and is preserved
by the delete handlers, by the research and planner templates, and by the
node-creating and waypoint operations whenever the freshly minted ids differ
from `root` (uuids never collide with it); the exam template and import do
not preserve it. -/
theorem c1_root_invariant_amended (st : GraphState) (fresh : Nat → NodeId)
    (subject : String) (nid eid wpId idA idB jId : NodeId) (ry : Rat) (pos : Pos)
    (cs : ConnSettings) (src tgt : NodeId) :
    countRoot initialState.nodes = 1 ∧
    countRoot (deleteSelected st).nodes = countRoot st.nodes ∧
    countRoot (onKeyDelete st).nodes = countRoot st.nodes ∧
    countRoot (applyTemplateResearch fresh st).nodes = 1 ∧
    countRoot (applyTemplatePlanner fresh st).nodes = 1 ∧
    (nid ≠ "root" → countRoot (addChild st subject nid eid ry).nodes = countRoot st.nodes) ∧
    (nid ≠ "root" → countRoot (createNodeBoxAt st pos nid).nodes = countRoot st.nodes) ∧
    (wpId ≠ "root" →
      countRoot (informationalConnect cs st src tgt wpId idA idB).nodes = countRoot st.nodes) ∧
    (wpId ≠ "root" →
      countRoot (splitEdgeToWaypoint st eid wpId idA idB).nodes = countRoot st.nodes) ∧
    (wpId ≠ "root" →
      countRoot (insertWaypointAt st eid pos wpId idA idB).nodes = countRoot st.nodes) ∧
    ((∀ n ∈ st.nodes, n.type = NodeType.waypoint → n.id ≠ "root") →
      countRoot (removeWaypoint st eid jId).nodes = countRoot st.nodes) := by
  refine ⟨rfl, countRoot_deleteSelected st, countRoot_onKeyDelete st, rfl, rfl,
    fun h => countRoot_addChild st subject nid eid ry h,
    fun h => countRoot_createNodeBoxAt st pos nid h,
    fun h => countRoot_informationalConnect cs st src tgt wpId idA idB h,
    fun h => countRoot_splitEdgeToWaypoint st eid wpId idA idB h,
    fun h => countRoot_insertWaypointAt st eid pos wpId idA idB h,
    fun h => countRoot_removeWaypoint st eid jId h⟩

/-- C1 (witness): the amended preservation statements hold at the initial
state with concrete fresh ids. -/
theorem c1_root_invariant_amended_witness :
    (("n1" : NodeId) ≠ "root") ∧
    countRoot (addChild initialState "Math" "n1" "e9" 0).nodes =
      countRoot initialState.nodes ∧
    (("w9" : NodeId) ≠ "root") ∧
    countRoot (insertWaypointAt initialState "x" { x := 1, y := 1 } "w9" "a9" "b9").nodes =
      countRoot initialState.nodes ∧
    (∀ n ∈ initialState.nodes, n.type = NodeType.waypoint → n.id ≠ "root") ∧
    countRoot (removeWaypoint initialState "x" "j9").nodes =
      countRoot initialState.nodes := by
  obtain ⟨-, -, -, -, -, h6, -, -, -, h10, h11⟩ :=
    c1_root_invariant_amended initialState (fun _ => "f0") "Math" "n1" "e9" "w9" "a9"
      "b9" "j9" 0 { x := 1, y := 1 }
      { connLabel := "", connType := "one-way", connColor := "#4f46e5", connWidth := 2,
        connLabelBg := true, connLabelBgColor := "#ffffff", connLabelTextColor := "#111827" }
      "root" "A"
  exact ⟨by decide, h6 (by decide), by decide, h10 (by decide), by decide, h11 (by decide)⟩

/-- C2: when the selected node is `root` (and hence no edge is selected),
both delete paths — the inspector's `deleteSelected` and the Delete key
handler — leave the node list and the edge list unchanged. -/
theorem c2_delete_root_noop (st : GraphState)
    (h1 : st.selectedId = some "root") (h2 : st.selectedEdgeId = none) :
    (deleteSelected st).nodes = st.nodes ∧ (deleteSelected st).edges = st.edges ∧
    (onKeyDelete st).nodes = st.nodes ∧ (onKeyDelete st).edges = st.edges := by
  unfold deleteSelected onKeyDelete
  rw [h1, h2]
  cases hfind : st.nodes.find? (fun n => decide (n.id = "root")) with
  | none => simp [hfind]
  | some sn =>
    have hsn : sn.id = "root" := by
      have := List.find?_some hfind
      simpa using this
    simp [hfind, hsn]

/-- C2 (witness): deleting at the initial state, whose selection is `root`,
changes nothing. -/
theorem c2_delete_root_noop_witness :
    initialState.selectedId = some "root" ∧ initialState.selectedEdgeId = none ∧
    (deleteSelected initialState).nodes = initialState.nodes ∧
    (deleteSelected initialState).edges = initialState.edges ∧
    (onKeyDelete initialState).nodes = initialState.nodes ∧
    (onKeyDelete initialState).edges = initialState.edges := by
  have h := c2_delete_root_noop initialState rfl rfl
  exact ⟨rfl, rfl, h.1, h.2.1, h.2.2.1, h.2.2.2⟩

/-- C3 (counterexample): with C = {a} and the single edge a→b the hidden set
is {b}, but recomputing on {b} yields the empty set, so
`computeHidden(computeHidden(C,E),E) = computeHidden(C,E)` fails. -/
theorem c3_idempotent_counterexample :
    computeHiddenTargets (computeHiddenTargets ["a"] [mkEdge "e" "a" "b"])
        [mkEdge "e" "a" "b"] ≠
      computeHiddenTargets ["a"] [mkEdge "e" "a" "b"] := by
  decide

/-- C3 (amended): `computeHiddenTargets` is idempotent in the sense that
recomputing on its own output joined with the original collapse set (and the
original edges) yields the same hidden set:
`computeHidden(C ∪ computeHidden(C,E), E) = computeHidden(C,E)`. -/
theorem c3_idempotent_amended (C : List NodeId) (E : List Edge) (x : NodeId) :
    x ∈ computeHiddenTargets (C ++ computeHiddenTargets C E) E ↔
      x ∈ computeHiddenTargets C E := by
  rw [mem_computeHiddenTargets, mem_computeHiddenTargets]
  constructor
  · intro hr
    exact reachP_absorb E C (computeHiddenTargets C E) x
      (fun y hy => (mem_computeHiddenTargets C E y).mp hy) hr
  · intro hr
    exact reachP_mono E C (C ++ computeHiddenTargets C E) x
      (fun y hy => List.mem_append.mpr (Or.inl hy)) hr

/-- C4 (counterexample): in the root→A graph with `root` collapsed, `root` is
collapsed but not hidden, yet the rendered node list is empty — the collapsed
node itself is filtered out, not kept visible. -/
theorem c4_collapsed_visible_counterexample :
    ("root" ∈ st4.collapsed) ∧
    ("root" ∉ computeHiddenTargets st4.collapsed st4.edges) ∧
    (rootNode ∈ st4.nodes ∧ rootNode.id = "root") ∧
    decoratedNodes st4 = [] := by
  decide

/-- C4 (amended): a node is rendered iff it is in the node list and is
neither in the hidden set nor in the collapsed set; collapsing a node
removes the node itself from the rendered list along with its descendants. -/
theorem c4_collapsed_visible_amended (st : GraphState) (n : Node) :
    n ∈ decoratedNodes st ↔
      n ∈ st.nodes ∧ n.id ∉ computeHiddenTargets st.collapsed st.edges ∧
        n.id ∉ st.collapsed := by
  simp [decoratedNodes, List.mem_filter, and_assoc]

/-- C5: an edge is rendered iff it is in the edge list, neither endpoint is
hidden, and its source is not collapsed; in the root→A graph with `root`
collapsed the hidden set is {A} and the visible edge set is empty. -/
theorem c5_visible_edges_rule :
    (∀ (st : GraphState) (e : Edge),
      e ∈ visibleEdges st ↔
        e ∈ st.edges ∧ e.source ∉ computeHiddenTargets st.collapsed st.edges ∧
          e.target ∉ computeHiddenTargets st.collapsed st.edges ∧
          e.source ∉ st.collapsed) ∧
    computeHiddenTargets ["root"] st4.edges = ["A"] ∧
    visibleEdges st4 = [] := by
  refine ⟨?_, by decide, by decide⟩
  intro st e
  simp [visibleEdges, List.mem_filter, and_assoc]

/-- C8 (code bug): `insertWaypointAt` with an absent edge id appends a stray
dangling waypoint node (the node list grows from 1 to 2 while the edges stay
empty), and `removeWaypoint` on a waypoint with an inbound but no outbound
edge deletes the waypoint and its incident edge instead of leaving the graph
unchanged. -/
theorem c8_precondition_mutation_bug :
    ((insertWaypointAt initialState "missing" { x := 10, y := 10 } "w" "a" "b").nodes ≠
        initialState.nodes ∧
      (insertWaypointAt initialState "missing" { x := 10, y := 10 } "w" "a" "b").edges =
        initialState.edges ∧
      initialState.nodes.length = 1 ∧
      (insertWaypointAt initialState "missing" { x := 10, y := 10 } "w" "a" "b").nodes.length
        = 2) ∧
    (stR.nodes.length = 2 ∧ stR.edges.length = 1 ∧
      (removeWaypoint stR "e1" "j").nodes.length = 1 ∧
      (removeWaypoint stR "e1" "j").edges = []) := by
  decide

/-- C9: exporting the graph to the JSON snapshot and importing it back
reproduces the same node list, the same edge list, and the same collapsed
set (as a set of ids), for every graph state. -/
theorem c9_serialize_roundtrip (st base : GraphState) :
    (importJSON (exportJSON st) base).nodes = st.nodes ∧
    (importJSON (exportJSON st) base).edges = st.edges ∧
    (∀ x, x ∈ (importJSON (exportJSON st) base).collapsed ↔ x ∈ st.collapsed) := by
  refine ⟨rfl, rfl, ?_⟩
  intro x
  simpa [importJSON, exportJSON] using mem_jsSetOfList st.collapsed x

/-- C10 (counterexample): with C = {a} and edges a→b, b→a the id `a` is
enqueued twice — once as the initial collapsed id (without being added to
hidden) and once when discovered as a target — refuting the claim that no id
is enqueued more than once. -/
theorem c10_enqueue_counterexample :
    enqueuedIds ["a"] cycleEdges = ["a", "b", "a"] ∧
    (enqueuedIds ["a"] cycleEdges).count "a" = 2 := by
  decide

/-- C10 (amended): on every finite collapse set and edge list — including
cycles and self-loops — the BFS of `computeHiddenTargets` terminates within
the fuel `chtFuel` and returns a duplicate-free hidden set; an id discovered
as a target is added to hidden before being enqueued, but an initially
collapsed id may be enqueued a second time. -/
theorem c10_termination_amended (C : List NodeId) (E : List Edge) :
    (∃ h, chtLoop E (chtFuel C E) [] C = some h ∧ h.Nodup) ∧
    (computeHiddenTargets C E).Nodup := by
  obtain ⟨hf, hrun⟩ := computeHiddenTargets_run C E
  refine ⟨⟨hf, hrun, ?_⟩, computeHiddenTargets_nodup C E⟩
  have hnd := computeHiddenTargets_nodup C E
  rwa [show computeHiddenTargets C E = hf from by simp [computeHiddenTargets, hrun]] at hnd

/-- C6: under the Informational tool with both endpoints present, connecting
adds exactly one waypoint node at the geometric midpoint of the endpoints
and exactly two edges — source→waypoint with the pending label and style and
waypoint→target with no label — and neither edge has any marker, for every
pending arrow-mode setting. -/
theorem c6_informational_connect (cs : ConnSettings) (st : GraphState)
    (src tgt wpId idA idB : NodeId) (sn tn : Node)
    (hs : st.nodes.find? (fun n => decide (n.id = src)) = some sn)
    (ht : st.nodes.find? (fun n => decide (n.id = tgt)) = some tn) :
    informationalConnect cs st src tgt wpId idA idB =
      { st with
        nodes := st.nodes ++
          [{ id := wpId, type := NodeType.waypoint,
             position := { x := (sn.position.x + tn.position.x) / 2,
                           y := (sn.position.y + tn.position.y) / 2 },
             data := emptyNodeData }],
        edges := st.edges ++
          [{ id := idA, source := src, target := wpId, type := some "smoothstep",
             label := strOrUndef cs.connLabel, style := some (baseStyle cs),
             markerStart := none, markerEnd := none,
             labelShowBg := some cs.connLabelBg,
             labelBgFill := some cs.connLabelBgColor,
             labelFill := some cs.connLabelTextColor, labelBgPadding := some (6, 4) },
           { id := idB, source := wpId, target := tgt, type := some "smoothstep",
             label := none, style := some (baseStyle cs), markerStart := none,
             markerEnd := none, labelShowBg := none, labelBgFill := none,
             labelFill := none, labelBgPadding := none }] } := by
  unfold informationalConnect
  rw [hs, ht]

/-- C6 (witness): connecting `root` to `A` in the example graph under the
Informational tool with the two-way arrow mode pending still produces two
marker-free edges around one waypoint at the midpoint. -/
theorem c6_informational_connect_witness :
    (st4.nodes.find? (fun n => decide (n.id = "root")) = some rootNode) ∧
    (st4.nodes.find? (fun n => decide (n.id = "A")) = some nodeA) ∧
    informationalConnect
        { connLabel := "note", connType := "two-way", connColor := "#4f46e5",
          connWidth := 2, connLabelBg := true, connLabelBgColor := "#ffffff",
          connLabelTextColor := "#111827" }
        st4 "root" "A" "w" "a" "b" =
      { st4 with
        nodes := st4.nodes ++
          [{ id := "w", type := NodeType.waypoint,
             position := { x := (rootNode.position.x + nodeA.position.x) / 2,
                           y := (rootNode.position.y + nodeA.position.y) / 2 },
             data := emptyNodeData }],
        edges := st4.edges ++
          [{ id := "a", source := "root", target := "w", type := some "smoothstep",
             label := some "note",
             style := some { stroke := some "#4f46e5", strokeWidth := some 2,
                             strokeDasharray := none },
             markerStart := none, markerEnd := none, labelShowBg := some true,
             labelBgFill := some "#ffffff", labelFill := some "#111827",
             labelBgPadding := some (6, 4) },
           { id := "b", source := "w", target := "A", type := some "smoothstep",
             label := none,
             style := some { stroke := some "#4f46e5", strokeWidth := some 2,
                             strokeDasharray := none },
             markerStart := none, markerEnd := none, labelShowBg := none,
             labelBgFill := none, labelFill := none, labelBgPadding := none }] } := by
  have hfr : st4.nodes.find? (fun n => decide (n.id = "root")) = some rootNode := by decide
  have hfa : st4.nodes.find? (fun n => decide (n.id = "A")) = some nodeA := by decide
  have h := c6_informational_connect
    { connLabel := "note", connType := "two-way", connColor := "#4f46e5",
      connWidth := 2, connLabelBg := true, connLabelBgColor := "#ffffff",
      connLabelTextColor := "#111827" }
    st4 "root" "A" "w" "a" "b" rootNode nodeA hfr hfa
  exact ⟨hfr, hfa, h⟩

theorem removeWaypoint_rejoin (nodes0 : List Node) (F : List Edge) (wpPos : Pos)
    (co : List NodeId) (si se : Option NodeId) (e : Edge)
    (wpId idA idB jId segId : NodeId)
    (hAB : idA ≠ idB)
    (hnowp : ∀ n ∈ nodes0, n.type ≠ NodeType.waypoint)
    (hwpn : ∀ n ∈ nodes0, n.id ≠ wpId)
    (hFwp : ∀ x ∈ F, x.source ≠ wpId ∧ x.target ≠ wpId)
    (hFidA : ∀ x ∈ F, x.id ≠ idA) (hFidB : ∀ x ∈ F, x.id ≠ idB)
    (hsrc_ne : e.source ≠ wpId) (htgt_ne : e.target ≠ wpId)
    (hseg : segId = idA ∨ segId = idB) :
    removeWaypoint
      { nodes := nodes0 ++ [{ id := wpId, type := NodeType.waypoint, position := wpPos, data := emptyNodeData }],
        edges := F ++ [{ id := idA, source := e.source, target := wpId, type := e.type, label := e.label, style := e.style, markerStart := e.markerStart, markerEnd := e.markerEnd, labelShowBg := none, labelBgFill := none, labelFill := none, labelBgPadding := none }, { id := idB, source := wpId, target := e.target, type := e.type, label := e.label, style := e.style, markerStart := e.markerStart, markerEnd := e.markerEnd, labelShowBg := none, labelBgFill := none, labelFill := none, labelBgPadding := none }],
        collapsed := co, selectedId := si, selectedEdgeId := se } segId jId =
    { nodes := nodes0,
      edges := F ++ [{ id := jId, source := e.source, target := e.target, type := e.type, label := e.label, style := e.style, markerStart := none, markerEnd := e.markerEnd, labelShowBg := none, labelBgFill := none, labelFill := none, labelBgPadding := none }],
      collapsed := co, selectedId := si, selectedEdgeId := se } := by
  have hbefore : (F ++ ([{ id := idA, source := e.source, target := wpId, type := e.type, label := e.label, style := e.style, markerStart := e.markerStart, markerEnd := e.markerEnd, labelShowBg := none, labelBgFill := none, labelFill := none, labelBgPadding := none }, { id := idB, source := wpId, target := e.target, type := e.type, label := e.label, style := e.style, markerStart := e.markerStart, markerEnd := e.markerEnd, labelShowBg := none, labelBgFill := none, labelFill := none, labelBgPadding := none }] : List Edge)).find? (fun x => decide (x.target = wpId)) = some ({ id := idA, source := e.source, target := wpId, type := e.type, label := e.label, style := e.style, markerStart := e.markerStart, markerEnd := e.markerEnd, labelShowBg := none, labelBgFill := none, labelFill := none, labelBgPadding := none } : Edge) := by
    rw [find?_append_none (by
      rw [List.find?_eq_none]
      intro x hx
      simpa using (hFwp x hx).2)]
    rw [List.find?_cons_of_pos]
    simp
  have hafter : (F ++ ([{ id := idA, source := e.source, target := wpId, type := e.type, label := e.label, style := e.style, markerStart := e.markerStart, markerEnd := e.markerEnd, labelShowBg := none, labelBgFill := none, labelFill := none, labelBgPadding := none }, { id := idB, source := wpId, target := e.target, type := e.type, label := e.label, style := e.style, markerStart := e.markerStart, markerEnd := e.markerEnd, labelShowBg := none, labelBgFill := none, labelFill := none, labelBgPadding := none }] : List Edge)).find? (fun x => decide (x.source = wpId)) = some ({ id := idB, source := wpId, target := e.target, type := e.type, label := e.label, style := e.style, markerStart := e.markerStart, markerEnd := e.markerEnd, labelShowBg := none, labelBgFill := none, labelFill := none, labelBgPadding := none } : Edge) := by
    rw [find?_append_none (by
      rw [List.find?_eq_none]
      intro x hx
      simpa using (hFwp x hx).1)]
    rw [List.find?_cons_of_neg, List.find?_cons_of_pos]
    · simp
    · simpa using hsrc_ne
  have hothers : (F ++ ([{ id := idA, source := e.source, target := wpId, type := e.type, label := e.label, style := e.style, markerStart := e.markerStart, markerEnd := e.markerEnd, labelShowBg := none, labelBgFill := none, labelFill := none, labelBgPadding := none }, { id := idB, source := wpId, target := e.target, type := e.type, label := e.label, style := e.style, markerStart := e.markerStart, markerEnd := e.markerEnd, labelShowBg := none, labelBgFill := none, labelFill := none, labelBgPadding := none }] : List Edge)).filter (fun x => decide (x.source ≠ wpId ∧ x.target ≠ wpId)) = F := by
    rw [List.filter_append]
    rw [List.filter_eq_self.mpr (by
      intro x hx
      simpa using hFwp x hx)]
    have h2 : ([{ id := idA, source := e.source, target := wpId, type := e.type, label := e.label, style := e.style, markerStart := e.markerStart, markerEnd := e.markerEnd, labelShowBg := none, labelBgFill := none, labelFill := none, labelBgPadding := none }, { id := idB, source := wpId, target := e.target, type := e.type, label := e.label, style := e.style, markerStart := e.markerStart, markerEnd := e.markerEnd, labelShowBg := none, labelBgFill := none, labelFill := none, labelBgPadding := none }] : List Edge).filter (fun x => decide (x.source ≠ wpId ∧ x.target ≠ wpId)) = [] := by
      simp
    rw [h2, List.append_nil]
  have hnodes : ((nodes0 ++ ([{ id := wpId, type := NodeType.waypoint, position := wpPos, data := emptyNodeData }] : List Node)).filter (fun n => decide (n.id ≠ wpId))) = nodes0 := by
    rw [List.filter_append]
    rw [List.filter_eq_self.mpr (by
      intro n hn
      simpa using hwpn n hn)]
    simp
  rcases hseg with rfl | rfl
  · have h1 : (F ++ ([{ id := segId, source := e.source, target := wpId, type := e.type, label := e.label, style := e.style, markerStart := e.markerStart, markerEnd := e.markerEnd, labelShowBg := none, labelBgFill := none, labelFill := none, labelBgPadding := none }, { id := idB, source := wpId, target := e.target, type := e.type, label := e.label, style := e.style, markerStart := e.markerStart, markerEnd := e.markerEnd, labelShowBg := none, labelBgFill := none, labelFill := none, labelBgPadding := none }] : List Edge)).find? (fun x => decide (x.id = segId)) = some ({ id := segId, source := e.source, target := wpId, type := e.type, label := e.label, style := e.style, markerStart := e.markerStart, markerEnd := e.markerEnd, labelShowBg := none, labelBgFill := none, labelFill := none, labelBgPadding := none } : Edge) := by
      rw [find?_append_none (by
        rw [List.find?_eq_none]
        intro x hx
        simpa using hFidA x hx)]
      rw [List.find?_cons_of_pos]
      simp
    have hwpfind : (nodes0 ++ ([{ id := wpId, type := NodeType.waypoint, position := wpPos, data := emptyNodeData }] : List Node)).find? (fun n => decide (n.type = NodeType.waypoint) && ((F ++ ([{ id := segId, source := e.source, target := wpId, type := e.type, label := e.label, style := e.style, markerStart := e.markerStart, markerEnd := e.markerEnd, labelShowBg := none, labelBgFill := none, labelFill := none, labelBgPadding := none }, { id := idB, source := wpId, target := e.target, type := e.type, label := e.label, style := e.style, markerStart := e.markerStart, markerEnd := e.markerEnd, labelShowBg := none, labelBgFill := none, labelFill := none, labelBgPadding := none }] : List Edge)).any (fun ed => decide (ed.source = n.id ∧ ed.target = wpId)) || (F ++ ([{ id := segId, source := e.source, target := wpId, type := e.type, label := e.label, style := e.style, markerStart := e.markerStart, markerEnd := e.markerEnd, labelShowBg := none, labelBgFill := none, labelFill := none, labelBgPadding := none }, { id := idB, source := wpId, target := e.target, type := e.type, label := e.label, style := e.style, markerStart := e.markerStart, markerEnd := e.markerEnd, labelShowBg := none, labelBgFill := none, labelFill := none, labelBgPadding := none }] : List Edge)).any (fun ed => decide (ed.target = n.id ∧ ed.source = e.source)))) = some ({ id := wpId, type := NodeType.waypoint, position := wpPos, data := emptyNodeData } : Node) := by
      rw [find?_append_none (by
        rw [List.find?_eq_none]
        intro n hn
        simp only [Bool.and_eq_true, decide_eq_true_eq]
        intro hP
        exact absurd hP.1 (hnowp n hn))]
      rw [List.find?_cons_of_pos]
      simp only [Bool.and_eq_true, Bool.or_eq_true, decide_eq_true_eq, List.any_eq_true]
      exact ⟨by simp, Or.inr ⟨{ id := segId, source := e.source, target := wpId, type := e.type, label := e.label, style := e.style, markerStart := e.markerStart, markerEnd := e.markerEnd, labelShowBg := none, labelBgFill := none, labelFill := none, labelBgPadding := none }, by simp, by simp⟩⟩
    unfold removeWaypoint
    simp only [h1, hwpfind, hbefore, hafter, hothers, hnodes]
  · have h1 : (F ++ ([{ id := idA, source := e.source, target := wpId, type := e.type, label := e.label, style := e.style, markerStart := e.markerStart, markerEnd := e.markerEnd, labelShowBg := none, labelBgFill := none, labelFill := none, labelBgPadding := none }, { id := segId, source := wpId, target := e.target, type := e.type, label := e.label, style := e.style, markerStart := e.markerStart, markerEnd := e.markerEnd, labelShowBg := none, labelBgFill := none, labelFill := none, labelBgPadding := none }] : List Edge)).find? (fun x => decide (x.id = segId)) = some ({ id := segId, source := wpId, target := e.target, type := e.type, label := e.label, style := e.style, markerStart := e.markerStart, markerEnd := e.markerEnd, labelShowBg := none, labelBgFill := none, labelFill := none, labelBgPadding := none } : Edge) := by
      rw [find?_append_none (by
        rw [List.find?_eq_none]
        intro x hx
        simpa using hFidB x hx)]
      rw [List.find?_cons_of_neg, List.find?_cons_of_pos]
      · simp
      · simpa using hAB
    have hwpfind : (nodes0 ++ ([{ id := wpId, type := NodeType.waypoint, position := wpPos, data := emptyNodeData }] : List Node)).find? (fun n => decide (n.type = NodeType.waypoint) && ((F ++ ([{ id := idA, source := e.source, target := wpId, type := e.type, label := e.label, style := e.style, markerStart := e.markerStart, markerEnd := e.markerEnd, labelShowBg := none, labelBgFill := none, labelFill := none, labelBgPadding := none }, { id := segId, source := wpId, target := e.target, type := e.type, label := e.label, style := e.style, markerStart := e.markerStart, markerEnd := e.markerEnd, labelShowBg := none, labelBgFill := none, labelFill := none, labelBgPadding := none }] : List Edge)).any (fun ed => decide (ed.source = n.id ∧ ed.target = e.target)) || (F ++ ([{ id := idA, source := e.source, target := wpId, type := e.type, label := e.label, style := e.style, markerStart := e.markerStart, markerEnd := e.markerEnd, labelShowBg := none, labelBgFill := none, labelFill := none, labelBgPadding := none }, { id := segId, source := wpId, target := e.target, type := e.type, label := e.label, style := e.style, markerStart := e.markerStart, markerEnd := e.markerEnd, labelShowBg := none, labelBgFill := none, labelFill := none, labelBgPadding := none }] : List Edge)).any (fun ed => decide (ed.target = n.id ∧ ed.source = wpId)))) = some ({ id := wpId, type := NodeType.waypoint, position := wpPos, data := emptyNodeData } : Node) := by
      rw [find?_append_none (by
        rw [List.find?_eq_none]
        intro n hn
        simp only [Bool.and_eq_true, decide_eq_true_eq]
        intro hP
        exact absurd hP.1 (hnowp n hn))]
      rw [List.find?_cons_of_pos]
      simp only [Bool.and_eq_true, Bool.or_eq_true, decide_eq_true_eq, List.any_eq_true]
      exact ⟨by simp, Or.inl ⟨{ id := segId, source := wpId, target := e.target, type := e.type, label := e.label, style := e.style, markerStart := e.markerStart, markerEnd := e.markerEnd, labelShowBg := none, labelBgFill := none, labelFill := none, labelBgPadding := none }, by simp, by simp⟩⟩
    unfold removeWaypoint
    simp only [h1, hwpfind, hbefore, hafter, hothers, hnodes]

theorem splitEdgeToWaypoint_eq (st : GraphState) (e : Edge) (eid wpId idA idB : NodeId)
    (hfind : st.edges.find? (fun x => decide (x.id = eid)) = some e) :
    ∃ wpPos : Pos,
      splitEdgeToWaypoint st eid wpId idA idB =
        { nodes := st.nodes ++
            [{ id := wpId, type := NodeType.waypoint, position := wpPos,
               data := emptyNodeData }],
          edges := st.edges.filter (fun x => decide (x.id ≠ eid)) ++ [{ id := idA, source := e.source, target := wpId, type := e.type, label := e.label, style := e.style, markerStart := e.markerStart, markerEnd := e.markerEnd, labelShowBg := none, labelBgFill := none, labelFill := none, labelBgPadding := none }, { id := idB, source := wpId, target := e.target, type := e.type, label := e.label, style := e.style, markerStart := e.markerStart, markerEnd := e.markerEnd, labelShowBg := none, labelBgFill := none, labelFill := none, labelBgPadding := none }],
          collapsed := st.collapsed, selectedId := st.selectedId,
          selectedEdgeId := st.selectedEdgeId } := by
  unfold splitEdgeToWaypoint
  rw [hfind]
  exact ⟨_, rfl⟩

/-- C7 (amended): splitting an edge `e` with distinct existing endpoints and
then removing either resulting segment restores a single edge with `e`'s
source and target (with the inserted waypoint gone), provided the graph
contains no waypoint node beforehand and the minted ids are fresh; with a
pre-existing adjacent waypoint the operation can splice the wrong node (see
the counterexample). -/
theorem c7_split_remove_roundtrip_amended (st : GraphState) (e : Edge)
    (eid wpId idA idB jId segId : NodeId)
    (hfind : st.edges.find? (fun x => decide (x.id = eid)) = some e)
    (hsrcex : ∃ n ∈ st.nodes, n.id = e.source)
    (htgtex : ∃ n ∈ st.nodes, n.id = e.target)
    (hdist : e.source ≠ e.target)
    (hnowp : ∀ n ∈ st.nodes, n.type ≠ NodeType.waypoint)
    (hwpn : ∀ n ∈ st.nodes, n.id ≠ wpId)
    (hwpe : ∀ x ∈ st.edges, x.source ≠ wpId ∧ x.target ≠ wpId)
    (hidA : ∀ x ∈ st.edges, x.id ≠ idA) (hidB : ∀ x ∈ st.edges, x.id ≠ idB)
    (hAB : idA ≠ idB)
    (hseg : segId = idA ∨ segId = idB) :
    removeWaypoint (splitEdgeToWaypoint st eid wpId idA idB) segId jId =
      { st with edges := st.edges.filter (fun x => decide (x.id ≠ eid)) ++ [{ id := jId, source := e.source, target := e.target, type := e.type, label := e.label, style := e.style, markerStart := none, markerEnd := e.markerEnd, labelShowBg := none, labelBgFill := none, labelFill := none, labelBgPadding := none }] } := by
  obtain ⟨wpPos, hsplit⟩ := splitEdgeToWaypoint_eq st e eid wpId idA idB hfind
  rw [hsplit]
  have hsrc_ne : e.source ≠ wpId := by
    obtain ⟨n, hn, hne⟩ := hsrcex
    exact hne ▸ hwpn n hn
  have htgt_ne : e.target ≠ wpId := by
    obtain ⟨n, hn, hne⟩ := htgtex
    exact hne ▸ hwpn n hn
  exact removeWaypoint_rejoin st.nodes (st.edges.filter (fun x => decide (x.id ≠ eid)))
    wpPos st.collapsed st.selectedId st.selectedEdgeId e wpId idA idB jId segId hAB
    hnowp hwpn
    (fun x hx => hwpe x (List.mem_filter.mp hx).1)
    (fun x hx => hidA x (List.mem_filter.mp hx).1)
    (fun x hx => hidB x (List.mem_filter.mp hx).1)
    hsrc_ne htgt_ne hseg

/-- C7 (counterexample): in a graph that already contains a waypoint `n0`
attached to `s`, splitting the edge `e : s→t` and removing one of the new
segments leaves the inserted waypoint `w` in the graph and produces no edge
from `s` to `t`, refuting the universally quantified claim. -/
theorem c7_split_remove_roundtrip_counterexample :
    ((removeWaypoint (splitEdgeToWaypoint stCx "e" "w" "a" "b") "a" "j").nodes.any
      (fun n => decide (n.id = "w"))) = true ∧
    ((removeWaypoint (splitEdgeToWaypoint stCx "e" "w" "a" "b") "a" "j").edges.any
      (fun ed => decide (ed.source = "s" ∧ ed.target = "t"))) = false := by
  decide

/-- C7 (witness): the amended round trip holds concretely on the root→A
graph for both resulting segments. -/
theorem c7_split_remove_roundtrip_amended_witness :
    (st4.edges.find? (fun x => decide (x.id = "e1")) = some (mkTplEdge "e1" "root" "A")) ∧
    (∀ n ∈ st4.nodes, n.type ≠ NodeType.waypoint) ∧
    (removeWaypoint (splitEdgeToWaypoint st4 "e1" "w" "a" "b") "a" "j" =
      { st4 with edges := [{ id := "j", source := "root", target := "A", type := some "smoothstep", label := none, style := none, markerStart := none, markerEnd := some Marker.arrowClosed, labelShowBg := none, labelBgFill := none, labelFill := none, labelBgPadding := none }] }) ∧
    (removeWaypoint (splitEdgeToWaypoint st4 "e1" "w" "a" "b") "b" "j" =
      { st4 with edges := [{ id := "j", source := "root", target := "A", type := some "smoothstep", label := none, style := none, markerStart := none, markerEnd := some Marker.arrowClosed, labelShowBg := none, labelBgFill := none, labelFill := none, labelBgPadding := none }] }) := by
  have hA := c7_split_remove_roundtrip_amended st4 (mkTplEdge "e1" "root" "A")
    "e1" "w" "a" "b" "j" "a" (by decide) (by decide) (by decide) (by decide)
    (by decide) (by decide) (by decide) (by decide) (by decide) (by decide)
    (Or.inl rfl)
  have hB := c7_split_remove_roundtrip_amended st4 (mkTplEdge "e1" "root" "A")
    "e1" "w" "a" "b" "j" "b" (by decide) (by decide) (by decide) (by decide)
    (by decide) (by decide) (by decide) (by decide) (by decide) (by decide)
    (Or.inr rfl)
  refine ⟨by decide, by decide, ?_, ?_⟩
  · rw [hA]
    decide
  · rw [hB]
    decide
